import Mathlib

/-!
Shallow embedding of the GeoJSON ingestion pipeline of the I-GUIDE-PostGIS
repository (src/ingest.py), together with theorems settling the frozen
claims about it.  Every definition mirrors the Python source; comments cite
source lines.
-/

namespace IGuide

/-- Scalar JSON/Python values that can occur as GeoJSON feature property
values (src/ingest.py lines 112-122 only ever inspects their runtime type).
The float payload is modelled as a rational; the ingest logic never looks
at the numeric value itself, only at the type tag. -/
inductive PyValue where
  | bool (b : Bool)
  | int (n : Int)
  | float (q : Rat)
  | str (s : String)
  | none
  deriving DecidableEq, Repr

/-- Python isinstance(v, int).  In Python, bool is a subclass of int, so
isinstance(True, int) is True; the model reflects the language semantics. -/
def isinstanceInt : PyValue → Bool
  | PyValue.int _ => true
  | PyValue.bool _ => true
  | _ => false

/-- Python isinstance(v, float). -/
def isinstanceFloat : PyValue → Bool
  | PyValue.float _ => true
  | _ => false

/-- Python isinstance(v, bool). -/
def isinstanceBool : PyValue → Bool
  | PyValue.bool _ => true
  | _ => false

/-- Column-type synthesis for one property value, mirroring
src/ingest.py lines 114-120: start from TEXT, then the if/elif chain
testing int, float, bool in that order. -/
def colType (v : PyValue) : String :=
  if isinstanceInt v then "INTEGER"
  else if isinstanceFloat v then "NUMERIC"
  else if isinstanceBool v then "BOOLEAN"
  else "TEXT"

/-- One GeoJSON feature, reduced to what src/ingest.py reads from it:
the geometry type label (none when the feature has no geometry object or
the geometry has no type key, lines 40-41) and the properties mapping as
an ordered association list (Python dicts preserve insertion order). -/
structure Feature where
  geometry : Option String
  properties : List (String × PyValue)
  deriving DecidableEq, Repr

/-- The properties member of a CRS block, as read on line 100:
crs[properties].get(name, ""). -/
structure CrsProps where
  crsName : Option String
  deriving DecidableEq, Repr

/-- A CRS block, as read on lines 98-100: crs.get(type) and the optional
properties member. -/
structure Crs where
  crsType : Option String
  props : Option CrsProps
  deriving DecidableEq, Repr

/-- A parsed GeoJSON document, reduced to what src/ingest.py reads:
the features list and the optional top-level crs block. -/
structure GeoDoc where
  features : List Feature
  crs : Option Crs
  deriving DecidableEq, Repr

/-- The set of distinct geometry-type labels across all features
(src/ingest.py lines 32, 39-41: geometry_types.add).  The Python set is
modelled as a duplicate-free list in first-insertion order; set membership
tests are order-independent, and the only order-sensitive use,
next(iter(...)) on line 51, is modelled below as the head of this list
(Python leaves set iteration order unspecified). -/
def collectTypes (fs : List Feature) : List String :=
  fs.foldl
    (fun acc f =>
      match f.geometry with
      | some t => if t ∈ acc then acc else acc ++ [t]
      | Option.none => acc)
    []

/-- Geometry-type resolution, mirroring src/ingest.py lines 43-51
verbatim, including the redundant second disjunct of each condition. -/
def resolveGeometryType (gts : List String) : Option String :=
  if "MultiPolygon" ∈ gts ∨ ("Polygon" ∈ gts ∧ "MultiPolygon" ∈ gts) then
    some "MultiPolygon"
  else if "MultiLineString" ∈ gts ∨ ("LineString" ∈ gts ∧ "MultiLineString" ∈ gts) then
    some "MultiLineString"
  else if "MultiPoint" ∈ gts ∨ ("Point" ∈ gts ∧ "MultiPoint" ∈ gts) then
    some "MultiPoint"
  else
    gts.head?

/-- The geometry type examine_geojson reports for a parsed document
(composition of lines 39-41 and 43-51). -/
def examineGeometryType (doc : GeoDoc) : Option String :=
  resolveGeometryType (collectTypes doc.features)

/-- postgis_type_map.get(geometry_type, "GEOMETRY"), lines 85-94. -/
def postgisType : Option String → String
  | some "Point" => "POINT"
  | some "LineString" => "LINESTRING"
  | some "Polygon" => "POLYGON"
  | some "MultiPoint" => "MULTIPOINT"
  | some "MultiLineString" => "MULTILINESTRING"
  | some "MultiPolygon" => "MULTIPOLYGON"
  | _ => "GEOMETRY"

/-- Splitting a character list on a separator character, mirroring Python
str.split(sep) with a one-character separator: the result always has one
more field than there are separator occurrences (fields may be empty). -/
def splitOnChar (sep : Char) : List Char → List (List Char)
  | [] => [[]]
  | c :: rest =>
      match splitOnChar sep rest with
      | [] => [[c]]
      | h :: t => if c = sep then [] :: h :: t else (c :: h) :: t

/-- Python int(s) on a decimal string: surrounding whitespace is stripped,
an optional sign is accepted, then a nonempty digit run; anything else
raises ValueError (modelled as none).  Digit-group underscores and
non-ASCII digits are not modelled; no input in this development contains
either. -/
def pyInt (s : String) : Option Int :=
  let trimmed :=
    ((s.toList.dropWhile Char.isWhitespace).reverse.dropWhile
      Char.isWhitespace).reverse
  let signAndDigits : Int × List Char :=
    match trimmed with
    | '-' :: ds => (-1, ds)
    | '+' :: ds => (1, ds)
    | ds => (1, ds)
  let digits := signAndDigits.2
  if digits ≠ [] ∧ digits.all Char.isDigit then
    some (signAndDigits.1 *
      (digits.foldl (fun acc c => acc * 10 + (c.toNat - 48)) 0 : Nat))
  else
    Option.none

/-- Containment of pat as a contiguous subsequence of a character list. -/
def containsSeq (pat : List Char) : List Char → Bool
  | [] => pat.isEmpty
  | c :: rest => pat.isPrefixOf (c :: rest) || containsSeq pat rest

/-- Python substring containment: pat in s. -/
def strContains (s pat : String) : Bool :=
  containsSeq pat.toList s.toList

/-- SRID detection from a CRS block, mirroring src/ingest.py lines 98-106:
require crs.get(type) == "name" and a properties member, read its name
with default "", and when "EPSG" occurs in it parse the last
colon-separated field as an int (a ValueError is swallowed). -/
def detectSrid (crs : Crs) : Option Int :=
  if crs.crsType = some "name" then
    match crs.props with
    | some p =>
        let nm := p.crsName.getD ""
        if strContains nm "EPSG" then
          pyInt (String.mk ((splitOnChar ':' nm.toList).getLastD []))
        else Option.none
    | Option.none => Option.none
  else Option.none

/-- The source SRID ingest_geojson_to_postgis ends up using, mirroring
lines 96-110: an explicitly supplied SRID wins; otherwise the document
CRS is consulted; otherwise 4326. -/
def effectiveSourceSrid (explicit : Option Int) (doc : GeoDoc) : Int :=
  match explicit with
  | some s => s
  | Option.none =>
      match doc.crs with
      | some crs => (detectSrid crs).getD 4326
      | Option.none => 4326

/-- Outcome of trying to read the file under one text encoding
(src/ingest.py lines 23-24): either open/read raises UnicodeDecodeError,
or the text decodes and json.load then either yields a parsed document or
raises a JSON parse error (modelled as decoded none). -/
inductive DecodeOutcome where
  | decodeError
  | decoded (parsed : Option GeoDoc)
  deriving DecidableEq, Repr

/-- A file is modelled by the outcome each encoding name produces on it. -/
def FileModel : Type := String → DecodeOutcome

/-- Result of the encoding loop of examine_geojson, lines 18-29:
success, a propagated JSON parse error (only UnicodeDecodeError is caught
by the inner handler), or the Exception raised on line 28 naming the
attempted encodings. -/
inductive LoadResult where
  | ok (doc : GeoDoc)
  | jsonError
  | allEncodingsFailed (encodings : List String)
  deriving DecidableEq, Repr

/-- encodings_to_try, line 19. -/
def encodingsToTry : List String := ["utf-8", "latin-1", "cp1252"]

/-- The for-loop of lines 21-29.  On a decode success the loop breaks (or a
JSON parse error propagates); on UnicodeDecodeError the encoding is
compared against encodings_to_try[-1] (passed as lastEnc) and either the
all-failed Exception is raised or the loop continues.  The [] case is
unreachable from loadGeojson because the last list element always either
breaks or raises; its value is arbitrary. -/
def decodeLoop (file : FileModel) (lastEnc : String) : List String → LoadResult
  | [] => LoadResult.jsonError
  | enc :: rest =>
      match file enc with
      | DecodeOutcome.decoded (some d) => LoadResult.ok d
      | DecodeOutcome.decoded Option.none => LoadResult.jsonError
      | DecodeOutcome.decodeError =>
          if enc = lastEnc then LoadResult.allEncodingsFailed encodingsToTry
          else decodeLoop file lastEnc rest

/-- The whole decode phase of examine_geojson (lines 18-29). -/
def loadGeojson (file : FileModel) : LoadResult :=
  decodeLoop file (encodingsToTry.getLastD "") encodingsToTry

/-- Modelled from the spec sentence for the encoding-handling claim (not
from the source): stop at the first encoding under which the file parses
as valid structured text; if none succeeds, fail with a decoding error
naming all attempted encodings.  Used only to exhibit where the source
diverges from this description. -/
def specLoadBehavior (file : FileModel) : LoadResult :=
  match encodingsToTry.findSome?
      (fun e =>
        match file e with
        | DecodeOutcome.decoded (some d) => some d
        | _ => Option.none) with
  | some d => LoadResult.ok d
  | Option.none => LoadResult.allEncodingsFailed encodingsToTry

/-- Python str.replace(pat, rep), on character lists: scan left to right
and replace each non-overlapping occurrence of pat.  The fuel argument
only bounds the recursion depth so that the definition is structural; any
fuel at least the length of the scanned list gives the replace semantics
(each step consumes at least one character since pat must be nonempty to
match).  The empty-pattern case (where Python would interleave rep
everywhere) is not modelled; the repository only ever replaces the
one-character pattern "-". -/
def pyReplaceFuel (pat rep : List Char) : Nat → List Char → List Char
  | _, [] => []
  | 0, s => s
  | fuel + 1, c :: rest =>
      if pat ≠ [] ∧ pat.isPrefixOf (c :: rest) then
        rep ++ pyReplaceFuel pat rep fuel ((c :: rest).drop pat.length)
      else
        c :: pyReplaceFuel pat rep fuel rest

/-- Python str.replace(pat, rep). -/
def pyReplace (pat rep s : List Char) : List Char :=
  pyReplaceFuel pat rep s.length s

/-- String-level wrapper for pyReplace. -/
def pyReplaceStr (s pat rep : String) : String :=
  String.mk (pyReplace pat.toList rep.toList s.toList)

/-- table_name.replace("-", "_"), src/ingest.py line 73. -/
def sanitizeTableName (raw : String) : String :=
  pyReplaceStr raw "-" "_"

/-- The column definitions string, lines 112-124: one quoted name plus
type per property of the first feature, joined by ", ". -/
def buildColumns (props : List (String × PyValue)) : String :=
  String.intercalate ", " (props.map (fun p => "\"" ++ p.1 ++ "\" " ++ colType p.2))

/-- The CREATE TABLE text of lines 125-131, with the f-string literals
(including their newlines and indentation) reproduced exactly. -/
def createTableSql (tableName columnsSql pgType : String) (targetSrid : Int) : String :=
  "\n        CREATE TABLE IF NOT EXISTS " ++ tableName ++
    " (\n            id SERIAL PRIMARY KEY,\n            " ++ columnsSql ++
    ",\n            geom GEOMETRY(" ++ pgType ++ ", " ++ toString targetSrid ++
    ")\n        );\n        "

/-- The per-row INSERT text of lines 157-172. -/
def insertSqlText (tableName : String) (propNames : List String)
    (sourceSrid targetSrid : Int) : String :=
  let quoted := propNames.map (fun n => "\"" ++ n ++ "\"")
  let placeholders := propNames.map (fun _ => "%s")
  "\n            INSERT INTO " ++ tableName ++
    " (\n                " ++ String.intercalate ", " quoted ++
    ",\n                geom\n            ) VALUES (\n                " ++
    String.intercalate ", " placeholders ++
    ",\n                ST_Transform(ST_SetSRID(ST_GeomFromGeoJSON(%s), " ++
    toString sourceSrid ++ "), " ++ toString targetSrid ++
    ")\n            );\n            "

/-- The side-file name of line 137, applied to the sanitized table name. -/
def sideFileName (tableName : String) : String :=
  tableName ++ "_table_structure.sql"

/-- ASCII lowercasing of one character.  Python str.lower also lowercases
non-ASCII letters, but no non-ASCII string lowercases to "yes" or "y", so
the membership test below is unaffected. -/
def pyLowerChar (c : Char) : Char :=
  if 'A' ≤ c ∧ c ≤ 'Z' then Char.ofNat (c.toNat + 32) else c

/-- Python str.lower. -/
def pyLower (s : String) : String :=
  String.mk (s.toList.map pyLowerChar)

/-- proceed = input(...).lower(); proceed in ["yes", "y"] (lines 140-142). -/
def lowerAnswerYes (answer : String) : Bool :=
  pyLower answer == "yes" || pyLower answer == "y"

/-- Observable actions of one run of ingest_geojson_to_postgis, in program
order: the examine_geojson console summary, the proposed-DDL printout, the
side-file write, the confirmation prompt, the cancellation message, the
CREATE TABLE execution, one successful or failed row INSERT, a progress
line, the single commit, and the completion tally. -/
inductive Event where
  | examineOutput
  | printTableStructure (sql : String)
  | writeFile (fname : String) (content : String)
  | prompt
  | cancelMsg
  | execCreate (sql : String)
  | insertRow (idx : Nat)
  | logInsertError (idx : Nat)
  | progressMsg (inserted total : Nat)
  | commit
  | completed (inserted total : Nat)
  deriving DecidableEq, Repr

/-- The row-insertion loop of lines 154-183.  ok idx says whether
cursor.execute succeeds for the feature at position idx; on success the
counter increments and a progress line may print (line 178), on failure
the error is logged and the loop continues.  Returns the emitted events
and the final inserted count. -/
def insertLoop (ok : Nat → Bool) (total : Nat) :
    List Feature → Nat → Nat → List Event × Nat
  | [], _, inserted => ([], inserted)
  | _ :: rest, idx, inserted =>
      if ok idx then
        let ins := inserted + 1
        let prog : List Event :=
          if ins % 100 == 0 || ins == total then [Event.progressMsg ins total] else []
        let r := insertLoop ok total rest (idx + 1) ins
        (Event.insertRow idx :: (prog ++ r.1), r.2)
      else
        let r := insertLoop ok total rest (idx + 1) inserted
        (Event.logInsertError idx :: r.1, r.2)

/-- properties as ingest uses them: the first feature's mapping
(examine_geojson line 37; None when there are no features). -/
def firstProps (doc : GeoDoc) : List (String × PyValue) :=
  match doc.features with
  | [] => []
  | f0 :: _ => f0.properties

/-- The CREATE TABLE statement a run of ingest_geojson_to_postgis builds
for a raw table name, parsed document and target SRID (lines 73-131). -/
def ingestCreateSql (raw : String) (doc : GeoDoc) (targetSrid : Int) : String :=
  createTableSql (sanitizeTableName raw) (buildColumns (firstProps doc))
    (postgisType (examineGeometryType doc)) targetSrid

/-- One run of ingest_geojson_to_postgis (lines 70-193) as a trace of
observable events plus the returned boolean.  load is the outcome of
examine_geojson (none when it returned None, line 77); answer is the
confirmation input; ok gives each row-insert outcome.  When the document
has no features, examine returns properties = None and line 113
(properties.items()) raises AttributeError, caught by the outer handler
(line 191), so the run returns False after the examine output. -/
def ingest (raw : String) (load : Option GeoDoc) (_explicitSrid : Option Int)
    (targetSrid : Int) (answer : String) (ok : Nat → Bool) : List Event × Bool :=
  match load with
  | Option.none => ([], false)
  | some doc =>
      match doc.features with
      | [] => ([Event.examineOutput], false)
      | _ :: _ =>
          let tableName := sanitizeTableName raw
          let sql := ingestCreateSql raw doc targetSrid
          let pre : List Event :=
            [Event.examineOutput, Event.printTableStructure sql,
             Event.writeFile (sideFileName tableName) sql, Event.prompt]
          if lowerAnswerYes answer then
            let total := doc.features.length
            let r := insertLoop ok total doc.features 0 0
            (pre ++ Event.execCreate sql ::
              (r.1 ++ [Event.commit, Event.completed r.2 total]), true)
          else
            (pre ++ [Event.cancelMsg], false)

/-- Number of row inserts that succeed among the n features starting at
position idx. -/
def countOkFrom (ok : Nat → Bool) : Nat → Nat → Nat
  | _, 0 => 0
  | idx, Nat.succ n => (if ok idx then 1 else 0) + countOkFrom ok (idx + 1) n

/-- Number of row inserts that succeed among the first n features. -/
def succCount (ok : Nat → Bool) (n : Nat) : Nat :=
  countOkFrom ok 0 n

/-- Branch outcomes of the module-level script, lines 195-225: whether
psycopg2.connect succeeds, whether the PostGIS version round-trip
(cursor.execute plus fetchone, lines 201-202) succeeds, and whether the
entered file path exists.  ingest_geojson_to_postgis never raises (its
body is wrapped in try/except) and the interactive input and integer
conversions are modelled as succeeding (the conversions are guarded by
isdigit), so no other modelled step of the script can jump to the
module-level except handler. -/
structure ScriptWorld where
  connectOk : Bool
  versionOk : Bool
  fileExists : Bool
  deriving DecidableEq, Repr

/-- Observable actions of the module-level script. -/
inductive SEvent where
  | connect
  | versionPrint
  | ingestRun
  | fileNotFound
  | cursorClose
  | connClose
  | errorPrint
  deriving DecidableEq, Repr

/-- The module-level control flow of lines 195-225: a try block that
connects, checks the PostGIS version, runs the interactive flow, and then
closes cursor and connection; any exception jumps to the except handler
on line 224, which only prints.  There is no finally block. -/
def script (w : ScriptWorld) : List SEvent :=
  if w.connectOk then
    if w.versionOk then
      SEvent.connect :: SEvent.versionPrint ::
        ((if w.fileExists then [SEvent.ingestRun] else [SEvent.fileNotFound]) ++
          [SEvent.cursorClose, SEvent.connClose])
    else
      [SEvent.connect, SEvent.errorPrint]
  else
    [SEvent.errorPrint]

/-! ## Helper lemmas -/

lemma mem_collectTypes_aux (fs : List Feature) :
    ∀ (acc : List String) (t : String),
      (t ∈ fs.foldl
        (fun acc f =>
          match f.geometry with
          | some t2 => if t2 ∈ acc then acc else acc ++ [t2]
          | Option.none => acc)
        acc)
      ↔ t ∈ acc ∨ ∃ f ∈ fs, f.geometry = some t := by
  induction fs with
  | nil => intro acc t; simp
  | cons f fs ih =>
      intro acc t
      rw [List.foldl_cons, ih, List.exists_mem_cons_iff]
      cases hg : f.geometry with
      | none => simp [hg]
      | some t2 =>
          by_cases hmem : t2 ∈ acc
          · simp only [hg, if_pos hmem]
            constructor
            · intro h; rcases h with h | h
              · exact Or.inl h
              · exact Or.inr (Or.inr h)
            · intro h; rcases h with h | h | h
              · exact Or.inl h
              · rw [Option.some_inj] at h; exact Or.inl (h ▸ hmem)
              · exact Or.inr h
          · simp only [hg, if_neg hmem, List.mem_append, List.mem_singleton]
            constructor
            · intro h; rcases h with (h | h) | h
              · exact Or.inl h
              · exact Or.inr (Or.inl (by rw [h]))
              · exact Or.inr (Or.inr h)
            · intro h; rcases h with h | h | h
              · exact Or.inl (Or.inl h)
              · rw [Option.some_inj] at h; exact Or.inl (Or.inr h.symm)
              · exact Or.inr h

lemma mem_collectTypes (t : String) (fs : List Feature) :
    t ∈ collectTypes fs ↔ ∃ f ∈ fs, f.geometry = some t := by
  rw [collectTypes, mem_collectTypes_aux]
  simp

lemma resolveGeometryType_eq (gts : List String) :
    resolveGeometryType gts =
      if "MultiPolygon" ∈ gts then some "MultiPolygon"
      else if "MultiLineString" ∈ gts then some "MultiLineString"
      else if "MultiPoint" ∈ gts then some "MultiPoint"
      else gts.head? := by
  rw [resolveGeometryType]
  by_cases h1 : "MultiPolygon" ∈ gts <;>
    by_cases h2 : "MultiLineString" ∈ gts <;>
      by_cases h3 : "MultiPoint" ∈ gts <;>
        simp [h1, h2, h3]

lemma pyReplaceFuel_dash :
    ∀ (fuel : Nat) (l : List Char), l.length ≤ fuel →
      pyReplaceFuel ['-'] ['_'] fuel l
        = l.map (fun c => if c = '-' then '_' else c) := by
  intro fuel
  induction fuel with
  | zero =>
      intro l hl
      cases l with
      | nil => rfl
      | cons c rest => simp at hl
  | succ f ih =>
      intro l hl
      cases l with
      | nil => rfl
      | cons c rest =>
          rw [pyReplaceFuel]
          by_cases hc : c = '-'
          · have hcond : (['-'] : List Char) ≠ [] ∧
                (['-'] : List Char).isPrefixOf (c :: rest) := by
              subst hc
              exact ⟨by simp, by simp [List.isPrefixOf]⟩
            rw [if_pos hcond]
            subst hc
            have hrest : rest.length ≤ f := by
              simp only [List.length_cons] at hl; omega
            simp [ih rest hrest]
          · have hcond : ¬((['-'] : List Char) ≠ [] ∧
                (['-'] : List Char).isPrefixOf (c :: rest)) := by
              intro h
              have := h.2
              simp [List.isPrefixOf] at this
              exact hc this.symm
            rw [if_neg hcond]
            have hrest : rest.length ≤ f := by
              simp only [List.length_cons] at hl; omega
            simp [hc, ih rest hrest]

lemma pyReplace_dash (l : List Char) :
    pyReplace ['-'] ['_'] l = l.map (fun c => if c = '-' then '_' else c) :=
  pyReplaceFuel_dash l.length l (Nat.le_refl _)

lemma collect_family_facts (fs : List Feature) (a b : String) (hne : fs ≠ [])
    (hfam : ∀ f ∈ fs, f.geometry = some a ∨ f.geometry = some b) :
    (∀ t ∈ collectTypes fs, t = a ∨ t = b) ∧ collectTypes fs ≠ [] := by
  constructor
  · intro t ht
    obtain ⟨f, hf, hft⟩ := (mem_collectTypes t fs).mp ht
    rcases hfam f hf with h | h <;> rw [hft] at h <;>
      [exact Or.inl (Option.some_inj.mp h); exact Or.inr (Option.some_inj.mp h)]
  · obtain ⟨f0, hf0⟩ := List.exists_mem_of_ne_nil fs hne
    rcases hfam f0 hf0 with h | h
    · exact List.ne_nil_of_mem ((mem_collectTypes a fs).mpr ⟨f0, hf0, h⟩)
    · exact List.ne_nil_of_mem ((mem_collectTypes b fs).mpr ⟨f0, hf0, h⟩)

lemma head_of_all_eq (l : List String) (a : String) (hne : l ≠ [])
    (hall : ∀ t ∈ l, t = a) : l.head? = some a := by
  cases l with
  | nil => exact absurd rfl hne
  | cons x xs => simp [hall x (List.mem_cons_self x xs)]

/-! ## Claim C1 -/

/-- A one-feature FeatureCollection whose only geometry is a Polygon. -/
def docAllPolygon : GeoDoc :=
  ⟨[⟨some "Polygon", []⟩], Option.none⟩

/-- A FeatureCollection mixing the polygon and line families: one Polygon
feature and one MultiLineString feature. -/
def docPolygonLineMix : GeoDoc :=
  ⟨[⟨some "Polygon", []⟩, ⟨some "MultiLineString", []⟩], Option.none⟩

/-- Claim C1, counterexample, at two concrete inputs.  First, a
FeatureCollection whose features all lie in the polygon family (a single
Polygon feature) does NOT resolve to MultiPolygon: the second disjunct of
the condition on line 44 of src/ingest.py is redundant, so the
MultiPolygon branch fires only when a MultiPolygon is actually present,
and an all-Polygon collection falls through to the fallback and resolves
to Polygon.  Second, the polygon family does NOT take precedence over the
line family when families are mixed: a Polygon-plus-MultiLineString
document resolves to MultiLineString, not MultiPolygon, because line 44
tests for the MultiPolygon label, not for the polygon family. -/
theorem geometry_resolution_family_claim_fails :
    (examineGeometryType docAllPolygon = some "Polygon" ∧
      (some "Polygon" : Option String) ≠ some "MultiPolygon") ∧
    (examineGeometryType docPolygonLineMix = some "MultiLineString" ∧
      (some "MultiLineString" : Option String) ≠ some "MultiPolygon") :=
  ⟨⟨rfl, by decide⟩, ⟨rfl, by decide⟩⟩

/-- Claim C1, amended: within each geometry family the resolved type is the
Multi variant exactly when the Multi variant itself occurs among the
features, and an all-singular collection resolves to the singular type
(first three parts); across arbitrary, possibly family-mixed documents
the precedence MultiPolygon over MultiLineString over MultiPoint holds
among the Multi labels actually present: any MultiPolygon feature forces
MultiPolygon, otherwise any MultiLineString feature forces
MultiLineString, otherwise any MultiPoint feature forces MultiPoint
(last three parts). -/
theorem geometry_resolution_family_rule :
    ((∀ doc : GeoDoc, doc.features ≠ [] →
      (∀ f ∈ doc.features,
        f.geometry = some "Polygon" ∨ f.geometry = some "MultiPolygon") →
      examineGeometryType doc =
        (if ∃ f ∈ doc.features, f.geometry = some "MultiPolygon"
         then some "MultiPolygon" else some "Polygon")) ∧
    (∀ doc : GeoDoc, doc.features ≠ [] →
      (∀ f ∈ doc.features,
        f.geometry = some "LineString" ∨ f.geometry = some "MultiLineString") →
      examineGeometryType doc =
        (if ∃ f ∈ doc.features, f.geometry = some "MultiLineString"
         then some "MultiLineString" else some "LineString")) ∧
    (∀ doc : GeoDoc, doc.features ≠ [] →
      (∀ f ∈ doc.features,
        f.geometry = some "Point" ∨ f.geometry = some "MultiPoint") →
      examineGeometryType doc =
        (if ∃ f ∈ doc.features, f.geometry = some "MultiPoint"
         then some "MultiPoint" else some "Point"))) ∧
    ((∀ doc : GeoDoc,
      (∃ f ∈ doc.features, f.geometry = some "MultiPolygon") →
      examineGeometryType doc = some "MultiPolygon") ∧
    (∀ doc : GeoDoc,
      (¬ ∃ f ∈ doc.features, f.geometry = some "MultiPolygon") →
      (∃ f ∈ doc.features, f.geometry = some "MultiLineString") →
      examineGeometryType doc = some "MultiLineString") ∧
    (∀ doc : GeoDoc,
      (¬ ∃ f ∈ doc.features, f.geometry = some "MultiPolygon") →
      (¬ ∃ f ∈ doc.features, f.geometry = some "MultiLineString") →
      (∃ f ∈ doc.features, f.geometry = some "MultiPoint") →
      examineGeometryType doc = some "MultiPoint")) := by
  refine ⟨⟨?_, ?_, ?_⟩, ?_, ?_, ?_⟩
  · intro doc hne hfam
    rw [examineGeometryType, resolveGeometryType_eq]
    obtain ⟨hsub, hcne⟩ := collect_family_facts doc.features _ _ hne hfam
    have hmem := fun t => mem_collectTypes t doc.features
    have hnl : "MultiLineString" ∉ collectTypes doc.features := by
      intro hx; rcases hsub _ hx with h | h <;> exact absurd h (by decide)
    have hnpt : "MultiPoint" ∉ collectTypes doc.features := by
      intro hx; rcases hsub _ hx with h | h <;> exact absurd h (by decide)
    by_cases hmulti : ∃ f ∈ doc.features, f.geometry = some "MultiPolygon"
    · rw [if_pos ((hmem _).mpr hmulti), if_pos hmulti]
    · have hnm : "MultiPolygon" ∉ collectTypes doc.features :=
        fun hx => hmulti ((hmem _).mp hx)
      rw [if_neg hnm, if_neg hnl, if_neg hnpt, if_neg hmulti]
      apply head_of_all_eq _ _ hcne
      intro t ht
      rcases hsub t ht with h | h
      · exact h
      · exact absurd (h ▸ ht) hnm
  · intro doc hne hfam
    rw [examineGeometryType, resolveGeometryType_eq]
    obtain ⟨hsub, hcne⟩ := collect_family_facts doc.features _ _ hne hfam
    have hmem := fun t => mem_collectTypes t doc.features
    have hnp : "MultiPolygon" ∉ collectTypes doc.features := by
      intro hx; rcases hsub _ hx with h | h <;> exact absurd h (by decide)
    have hnpt : "MultiPoint" ∉ collectTypes doc.features := by
      intro hx; rcases hsub _ hx with h | h <;> exact absurd h (by decide)
    rw [if_neg hnp]
    by_cases hmulti : ∃ f ∈ doc.features, f.geometry = some "MultiLineString"
    · rw [if_pos ((hmem _).mpr hmulti), if_pos hmulti]
    · have hnm : "MultiLineString" ∉ collectTypes doc.features :=
        fun hx => hmulti ((hmem _).mp hx)
      rw [if_neg hnm, if_neg hnpt, if_neg hmulti]
      apply head_of_all_eq _ _ hcne
      intro t ht
      rcases hsub t ht with h | h
      · exact h
      · exact absurd (h ▸ ht) hnm
  · intro doc hne hfam
    rw [examineGeometryType, resolveGeometryType_eq]
    obtain ⟨hsub, hcne⟩ := collect_family_facts doc.features _ _ hne hfam
    have hmem := fun t => mem_collectTypes t doc.features
    have hnp : "MultiPolygon" ∉ collectTypes doc.features := by
      intro hx; rcases hsub _ hx with h | h <;> exact absurd h (by decide)
    have hnl : "MultiLineString" ∉ collectTypes doc.features := by
      intro hx; rcases hsub _ hx with h | h <;> exact absurd h (by decide)
    rw [if_neg hnp, if_neg hnl]
    by_cases hmulti : ∃ f ∈ doc.features, f.geometry = some "MultiPoint"
    · rw [if_pos ((hmem _).mpr hmulti), if_pos hmulti]
    · have hnm : "MultiPoint" ∉ collectTypes doc.features :=
        fun hx => hmulti ((hmem _).mp hx)
      rw [if_neg hnm, if_neg hmulti]
      apply head_of_all_eq _ _ hcne
      intro t ht
      rcases hsub t ht with h | h
      · exact h
      · exact absurd (h ▸ ht) hnm
  · intro doc hex
    rw [examineGeometryType, resolveGeometryType_eq,
      if_pos ((mem_collectTypes _ _).mpr hex)]
  · intro doc hnmp hex
    rw [examineGeometryType, resolveGeometryType_eq,
      if_neg (fun hc => hnmp ((mem_collectTypes _ _).mp hc)),
      if_pos ((mem_collectTypes _ _).mpr hex)]
  · intro doc hnmp hnml hex
    rw [examineGeometryType, resolveGeometryType_eq,
      if_neg (fun hc => hnmp ((mem_collectTypes _ _).mp hc)),
      if_neg (fun hc => hnml ((mem_collectTypes _ _).mp hc)),
      if_pos ((mem_collectTypes _ _).mpr hex)]

/-- A FeatureCollection mixing Polygon and MultiPolygon features. -/
def docMixPolygon : GeoDoc :=
  ⟨[⟨some "Polygon", []⟩, ⟨some "MultiPolygon", []⟩], Option.none⟩

/-- Claim C1 witness: the amended family rule applied to a concrete
Polygon/MultiPolygon mix, and the Multi-label precedence part applied to
a concrete family-mixed Polygon/MultiLineString document. -/
theorem geometry_resolution_family_rule_witness :
    (examineGeometryType docMixPolygon =
      (if ∃ f ∈ docMixPolygon.features, f.geometry = some "MultiPolygon"
       then some "MultiPolygon" else some "Polygon")) ∧
    examineGeometryType docPolygonLineMix = some "MultiLineString" :=
  ⟨geometry_resolution_family_rule.1.1 docMixPolygon (by decide) (by decide),
   geometry_resolution_family_rule.2.2.1 docPolygonLineMix (by decide) (by decide)⟩

/-! ## Claim C2 -/

/-- The first-feature property mapping of the spec example
(a: true, b: 3, c: 1.5, d: "x"), in insertion order. -/
def exampleFirstProps : List (String × PyValue) :=
  [("a", PyValue.bool true), ("b", PyValue.int 3),
   ("c", PyValue.float (3 / 2)), ("d", PyValue.str "x")]

/-- Claim C2: evaluation of the type-mapping code at the failing input.
Because Python bool is a subclass of int, isinstance(True, int) is True
and line 115 of src/ingest.py classifies a boolean property as INTEGER;
the BOOLEAN branch on lines 119-120 is unreachable.  On the spec example
the synthesized types are INTEGER, INTEGER, NUMERIC, TEXT, not the
claimed BOOLEAN, INTEGER, NUMERIC, TEXT. -/
theorem column_type_boolean_maps_to_integer :
    colType (PyValue.bool true) = "INTEGER" ∧
      exampleFirstProps.map (fun p => colType p.2)
          = ["INTEGER", "INTEGER", "NUMERIC", "TEXT"] ∧
      colType (PyValue.int 3) = "INTEGER" ∧
      colType (PyValue.float (3 / 2)) = "NUMERIC" ∧
      colType (PyValue.str "x") = "TEXT" ∧
      colType PyValue.none = "TEXT" :=
  ⟨rfl, rfl, rfl, rfl, rfl, rfl⟩

/-! ## Claim C8 -/

/-- A document whose CRS block names urn:ogc:def:crs:EPSG::3857. -/
def docCrs3857 : GeoDoc :=
  ⟨[], some ⟨some "name", some ⟨some "urn:ogc:def:crs:EPSG::3857"⟩⟩⟩

/-- A document with no CRS block. -/
def docNoCrs : GeoDoc := ⟨[], Option.none⟩

/-- Claim C8: with no explicit source SRID, the CRS block naming
EPSG::3857 is detected as 3857, and a document without a CRS block
defaults to 4326 (src/ingest.py lines 96-110). -/
theorem crs_detection_examples :
    effectiveSourceSrid Option.none docCrs3857 = 3857 ∧
      effectiveSourceSrid Option.none docNoCrs = 4326 := by
  exact ⟨by decide, rfl⟩

/-! ## Claim C5 -/

/-- Claim C5, counterexample: on the run where the connection opens but
the PostGIS version query raises (src/ingest.py line 201), control jumps
to the except handler on line 224, which only prints; conn.close() on
line 223 is never reached, so the connection is not closed by the script
on this exit path. -/
theorem connection_not_closed_on_version_error :
    SEvent.connect ∈ script ⟨true, false, true⟩ ∧
      SEvent.connClose ∉ script ⟨true, false, true⟩ := by decide

/-- Claim C5, amended: the script closes the connection exactly on the
runs where every step after the connect succeeds; any error raised after
the connection opens skips the close (there is no finally block). -/
theorem connection_closed_iff_no_later_error (w : ScriptWorld) :
    SEvent.connClose ∈ script w ↔ (w.connectOk = true ∧ w.versionOk = true) := by
  rcases w with ⟨c, v, fe⟩
  cases c <;> cases v <;> cases fe <;> decide

/-! ## Claim C10 -/

lemma toList_append (s t : String) :
    (s ++ t).toList = s.toList ++ t.toList :=
  String.data_append s t

lemma str_append_assoc (a b c : String) : a ++ b ++ c = a ++ (b ++ c) := by
  apply String.ext
  simp [String.data_append]

/-- Claim C10: table-name sanitization is exactly the characterwise
replacement of "-" by "_" (line 73); the sanitized name is interpolated
verbatim (as a contiguous substring) into the CREATE TABLE text, the
INSERT text and the side-file name. -/
theorem sanitize_only_replaces_dash :
    ∀ raw : String,
      (sanitizeTableName raw).toList
          = raw.toList.map (fun c => if c = '-' then '_' else c) ∧
      sideFileName (sanitizeTableName raw)
          = sanitizeTableName raw ++ "_table_structure.sql" ∧
      (∀ (doc : GeoDoc) (ts : Int), ∃ a b : List Char,
        (ingestCreateSql raw doc ts).toList
            = a ++ (sanitizeTableName raw).toList ++ b) ∧
      (∀ (names : List String) (srid ts : Int), ∃ a b : List Char,
        (insertSqlText (sanitizeTableName raw) names srid ts).toList
            = a ++ (sanitizeTableName raw).toList ++ b) := by
  intro raw
  refine ⟨?_, rfl, ?_, ?_⟩
  · exact pyReplace_dash raw.toList
  · intro doc ts
    refine ⟨"\n        CREATE TABLE IF NOT EXISTS ".toList,
      (" (\n            id SERIAL PRIMARY KEY,\n            " ++
        buildColumns (firstProps doc) ++ ",\n            geom GEOMETRY(" ++
        postgisType (examineGeometryType doc) ++ ", " ++ toString ts ++
        ")\n        );\n        ").toList, ?_⟩
    simp only [ingestCreateSql, createTableSql, toList_append, List.append_assoc]
  · intro names srid ts
    refine ⟨"\n            INSERT INTO ".toList,
      (" (\n                " ++
        String.intercalate ", " (names.map (fun n => "\"" ++ n ++ "\"")) ++
        ",\n                geom\n            ) VALUES (\n                " ++
        String.intercalate ", " (names.map (fun _ => "%s")) ++
        ",\n                ST_Transform(ST_SetSRID(ST_GeomFromGeoJSON(%s), " ++
        toString srid ++ "), " ++ toString ts ++
        ")\n            );\n            ").toList, ?_⟩
    simp only [insertSqlText, toList_append, List.append_assoc]

/-! ## Claims C4 and C9 -/

/-- A file whose content is the eight ASCII bytes of "not json": every
attempted encoding decodes those bytes to the same text, and json.load
fails on that text under each of them. -/
def fileNotJson : FileModel := fun _ => DecodeOutcome.decoded Option.none

/-- Claim C4, counterexample: on a file that decodes under utf-8 but is
not valid JSON, the loop does not move on to the remaining encodings (only
UnicodeDecodeError is caught on line 26); the JSON parse error propagates,
so the outcome is neither a successful parse under a later encoding nor
the error naming all attempted encodings that the claim requires when no
encoding yields a valid parse. -/
theorem json_error_aborts_encoding_loop :
    loadGeojson fileNotJson = LoadResult.jsonError ∧
      specLoadBehavior fileNotJson = LoadResult.allEncodingsFailed encodingsToTry ∧
      LoadResult.jsonError ≠ LoadResult.allEncodingsFailed encodingsToTry :=
  ⟨rfl, rfl, by decide⟩

/-- Claim C4, amended: the loop tries the fixed list utf-8, latin-1,
cp1252 in order and stops at the first encoding under which the file
DECODES; if the decoded text is not valid JSON the run fails with a JSON
parse error without trying further encodings; only when every encoding
raises a decoding error does it fail with the error naming all attempted
encodings. -/
theorem decode_loop_first_decode_wins :
    (∀ file : FileModel,
        file "utf-8" = DecodeOutcome.decodeError →
        file "latin-1" = DecodeOutcome.decodeError →
        file "cp1252" = DecodeOutcome.decodeError →
        loadGeojson file = LoadResult.allEncodingsFailed encodingsToTry) ∧
    (∀ (file : FileModel) (p : Option GeoDoc),
        file "utf-8" = DecodeOutcome.decoded p →
        loadGeojson file =
          (match p with
           | some d => LoadResult.ok d
           | Option.none => LoadResult.jsonError)) ∧
    (∀ (file : FileModel) (p : Option GeoDoc),
        file "utf-8" = DecodeOutcome.decodeError →
        file "latin-1" = DecodeOutcome.decoded p →
        loadGeojson file =
          (match p with
           | some d => LoadResult.ok d
           | Option.none => LoadResult.jsonError)) ∧
    (∀ (file : FileModel) (p : Option GeoDoc),
        file "utf-8" = DecodeOutcome.decodeError →
        file "latin-1" = DecodeOutcome.decodeError →
        file "cp1252" = DecodeOutcome.decoded p →
        loadGeojson file =
          (match p with
           | some d => LoadResult.ok d
           | Option.none => LoadResult.jsonError)) := by
  have ne1 : ("utf-8" : String) ≠ "cp1252" := by decide
  have ne2 : ("latin-1" : String) ≠ "cp1252" := by decide
  refine ⟨?_, ?_, ?_, ?_⟩
  · intro file h1 h2 h3
    simp [loadGeojson, encodingsToTry, decodeLoop, h1, h2, h3, ne1, ne2]
  · intro file p h1
    cases p <;> simp [loadGeojson, encodingsToTry, decodeLoop, h1]
  · intro file p h1 h2
    cases p <;> simp [loadGeojson, encodingsToTry, decodeLoop, h1, h2, ne1]
  · intro file p h1 h2 h3
    cases p <;> simp [loadGeojson, encodingsToTry, decodeLoop, h1, h2, h3, ne1, ne2]

/-- Claim C4 witness: the amended behavior evaluated on a file every
encoding fails to decode. -/
theorem decode_loop_first_decode_wins_witness :
    loadGeojson (fun _ => DecodeOutcome.decodeError)
      = LoadResult.allEncodingsFailed encodingsToTry :=
  decode_loop_first_decode_wins.1 (fun _ => DecodeOutcome.decodeError) rfl rfl rfl

/-- Claim C9: whenever reading the file under latin-1 does not raise a
decoding error (which is every real file, since latin-1 maps each of the
256 byte values to a character), the loop never reaches the
all-encodings-failed branch of line 28, whatever list of encodings that
error would name. -/
theorem latin1_totality_precludes_all_failed
    (file : FileModel) (h : file "latin-1" ≠ DecodeOutcome.decodeError) :
    ∀ encs : List String, loadGeojson file ≠ LoadResult.allEncodingsFailed encs := by
  intro encs
  have ne1 : ("utf-8" : String) ≠ "cp1252" := by decide
  cases h1 : file "utf-8" with
  | decoded p => cases p <;> simp [loadGeojson, encodingsToTry, decodeLoop, h1]
  | decodeError =>
      cases h2 : file "latin-1" with
      | decoded p =>
          cases p <;> simp [loadGeojson, encodingsToTry, decodeLoop, h1, h2, ne1]
      | decodeError => exact absurd h2 h

/-- Claim C9 witness: the theorem applied to a file that decodes (to
invalid JSON) under every encoding. -/
theorem latin1_totality_precludes_all_failed_witness :
    loadGeojson (fun _ => DecodeOutcome.decoded Option.none)
      ≠ LoadResult.allEncodingsFailed encodingsToTry :=
  latin1_totality_precludes_all_failed
    (fun _ => DecodeOutcome.decoded Option.none) (by decide) encodingsToTry

/-! ## Insert-loop lemmas -/

lemma insertLoop_cons_fst (ok : Nat → Bool) (total : Nat) (f : Feature)
    (rest : List Feature) (idx ins : Nat) :
    (insertLoop ok total (f :: rest) idx ins).1 =
      if ok idx then
        Event.insertRow idx ::
          ((if (ins + 1) % 100 == 0 || (ins + 1) == total
            then [Event.progressMsg (ins + 1) total] else []) ++
            (insertLoop ok total rest (idx + 1) (ins + 1)).1)
      else
        Event.logInsertError idx :: (insertLoop ok total rest (idx + 1) ins).1 := by
  by_cases hok : ok idx = true <;> simp [insertLoop, hok]

lemma insertLoop_cons_snd (ok : Nat → Bool) (total : Nat) (f : Feature)
    (rest : List Feature) (idx ins : Nat) :
    (insertLoop ok total (f :: rest) idx ins).2 =
      if ok idx then (insertLoop ok total rest (idx + 1) (ins + 1)).2
      else (insertLoop ok total rest (idx + 1) ins).2 := by
  by_cases hok : ok idx = true <;> simp [insertLoop, hok]

lemma insertLoop_event_shape (ok : Nat → Bool) (total : Nat) :
    ∀ (fs : List Feature) (idx ins : Nat), ∀ e ∈ (insertLoop ok total fs idx ins).1,
      (∃ i, e = Event.insertRow i) ∨ (∃ i, e = Event.logInsertError i) ∨
        ∃ a b, e = Event.progressMsg a b := by
  intro fs
  induction fs with
  | nil => intro idx ins e he; simp [insertLoop] at he
  | cons f rest ih =>
      intro idx ins e he
      rw [insertLoop_cons_fst] at he
      by_cases hok : ok idx = true
      · rw [if_pos hok] at he
        rcases List.mem_cons.mp he with h | h
        · exact Or.inl ⟨idx, h⟩
        · rcases List.mem_append.mp h with h | h
          · by_cases hp : ((ins + 1) % 100 == 0 || (ins + 1) == total) = true
            · rw [if_pos hp] at h
              exact Or.inr (Or.inr ⟨ins + 1, total, List.mem_singleton.mp h⟩)
            · rw [if_neg hp] at h
              simp at h
          · exact ih _ _ e h
      · rw [if_neg hok] at he
        rcases List.mem_cons.mp he with h | h
        · exact Or.inr (Or.inl ⟨idx, h⟩)
        · exact ih _ _ e h

lemma insertLoop_mem_row (ok : Nat → Bool) (total : Nat) :
    ∀ (fs : List Feature) (idx ins i : Nat), idx ≤ i → i < idx + fs.length →
      ok i = true → Event.insertRow i ∈ (insertLoop ok total fs idx ins).1 := by
  intro fs
  induction fs with
  | nil => intro idx ins i h1 h2 _; simp at h2; omega
  | cons f rest ih =>
      intro idx ins i h1 h2 h3
      rw [insertLoop_cons_fst]
      by_cases heq : i = idx
      · subst heq
        rw [if_pos h3]
        exact List.mem_cons_self _ _
      · have h2' : i < (idx + 1) + rest.length := by
          simp only [List.length_cons] at h2; omega
        by_cases hok : ok idx = true
        · rw [if_pos hok]
          exact List.mem_cons_of_mem _ (List.mem_append_right _ (ih (idx + 1) (ins + 1) i (by omega) h2' h3))
        · rw [if_neg hok]
          exact List.mem_cons_of_mem _ (ih (idx + 1) ins i (by omega) h2' h3)

lemma insertLoop_mem_log (ok : Nat → Bool) (total : Nat) :
    ∀ (fs : List Feature) (idx ins i : Nat), idx ≤ i → i < idx + fs.length →
      ok i = false → Event.logInsertError i ∈ (insertLoop ok total fs idx ins).1 := by
  intro fs
  induction fs with
  | nil => intro idx ins i h1 h2 _; simp at h2; omega
  | cons f rest ih =>
      intro idx ins i h1 h2 h3
      rw [insertLoop_cons_fst]
      by_cases heq : i = idx
      · subst heq
        rw [if_neg (by simp [h3])]
        exact List.mem_cons_self _ _
      · have h2' : i < (idx + 1) + rest.length := by
          simp only [List.length_cons] at h2; omega
        by_cases hok : ok idx = true
        · rw [if_pos hok]
          exact List.mem_cons_of_mem _ (List.mem_append_right _ (ih (idx + 1) (ins + 1) i (by omega) h2' h3))
        · rw [if_neg hok]
          exact List.mem_cons_of_mem _ (ih (idx + 1) ins i (by omega) h2' h3)

lemma insertLoop_snd (ok : Nat → Bool) (total : Nat) :
    ∀ (fs : List Feature) (idx ins : Nat),
      (insertLoop ok total fs idx ins).2 = ins + countOkFrom ok idx fs.length := by
  intro fs
  induction fs with
  | nil => intro idx ins; simp [insertLoop, countOkFrom]
  | cons f rest ih =>
      intro idx ins
      rw [insertLoop_cons_snd]
      simp only [List.length_cons]
      rw [show rest.length + 1 = Nat.succ rest.length from rfl, countOkFrom]
      by_cases hok : ok idx = true
      · rw [if_pos hok, if_pos hok, ih]
        omega
      · rw [if_neg hok, if_neg hok, ih]
        omega

lemma ingest_yes_trace (raw : String) (doc : GeoDoc) (srid : Option Int) (ts : Int)
    (answer : String) (ok : Nat → Bool) (f0 : Feature) (rest : List Feature)
    (hfs : doc.features = f0 :: rest) (hyes : lowerAnswerYes answer = true) :
    ingest raw (some doc) srid ts answer ok =
      ([Event.examineOutput,
        Event.printTableStructure (ingestCreateSql raw doc ts),
        Event.writeFile (sideFileName (sanitizeTableName raw)) (ingestCreateSql raw doc ts),
        Event.prompt] ++
        Event.execCreate (ingestCreateSql raw doc ts) ::
          ((insertLoop ok doc.features.length doc.features 0 0).1 ++
            [Event.commit,
             Event.completed (insertLoop ok doc.features.length doc.features 0 0).2
               doc.features.length]), true) := by
  simp [ingest, hfs, hyes]

lemma ingest_no_trace (raw : String) (doc : GeoDoc) (srid : Option Int) (ts : Int)
    (answer : String) (ok : Nat → Bool) (f0 : Feature) (rest : List Feature)
    (hfs : doc.features = f0 :: rest) (hno : lowerAnswerYes answer = false) :
    ingest raw (some doc) srid ts answer ok =
      ([Event.examineOutput,
        Event.printTableStructure (ingestCreateSql raw doc ts),
        Event.writeFile (sideFileName (sanitizeTableName raw)) (ingestCreateSql raw doc ts),
        Event.prompt, Event.cancelMsg], false) := by
  simp [ingest, hfs, hno]

/-! ## Claim C3 -/

/-- Claim C3: when the confirmation is answered yes and some row insert
fails, the failing row is logged and every other row is still attempted
(the batch is never aborted), the single commit comes after all row
events, and the completion message reports the number of successfully
inserted rows out of the total feature count (lines 148-189). -/
theorem row_failures_logged_batch_committed_once
    (raw : String) (doc : GeoDoc) (srid : Option Int) (ts : Int) (answer : String)
    (ok : Nat → Bool) (j : Nat)
    (hyes : lowerAnswerYes answer = true)
    (hj : j < doc.features.length) (hfail : ok j = false) :
    ∃ p : List Event,
      (ingest raw (some doc) srid ts answer ok).1
          = p ++ [Event.commit,
                  Event.completed (succCount ok doc.features.length)
                    doc.features.length]
        ∧ Event.commit ∉ p
        ∧ Event.logInsertError j ∈ p
        ∧ (∀ i, i < doc.features.length → ok i = true → Event.insertRow i ∈ p)
        ∧ (∀ i, i < doc.features.length → ok i = false → Event.logInsertError i ∈ p)
        ∧ (ingest raw (some doc) srid ts answer ok).2 = true := by
  obtain ⟨f0, rest, hfs⟩ : ∃ f0 rest, doc.features = f0 :: rest := by
    cases h : doc.features with
    | nil => rw [h] at hj; simp at hj
    | cons a b => exact ⟨a, b, rfl⟩
  rw [ingest_yes_trace raw doc srid ts answer ok f0 rest hfs hyes]
  have hsnd : (insertLoop ok doc.features.length doc.features 0 0).2
      = succCount ok doc.features.length := by
    rw [insertLoop_snd]
    simp [succCount]
  refine ⟨[Event.examineOutput,
           Event.printTableStructure (ingestCreateSql raw doc ts),
           Event.writeFile (sideFileName (sanitizeTableName raw))
             (ingestCreateSql raw doc ts),
           Event.prompt] ++
           Event.execCreate (ingestCreateSql raw doc ts) ::
             (insertLoop ok doc.features.length doc.features 0 0).1,
         ?_, ?_, ?_, ?_, ?_, rfl⟩
  · rw [hsnd]
    simp [List.append_assoc]
  · intro hmem
    rcases List.mem_append.mp hmem with h | h
    · simp at h
    · rcases List.mem_cons.mp h with h | h
      · simp at h
      · rcases insertLoop_event_shape ok _ _ _ _ _ h with ⟨i, hi⟩ | ⟨i, hi⟩ | ⟨a, b, hab⟩ <;>
          simp_all
  · apply List.mem_append_right
    apply List.mem_cons_of_mem
    exact insertLoop_mem_log ok _ doc.features 0 0 j (by omega) (by omega) hfail
  · intro i hic hoki
    apply List.mem_append_right
    apply List.mem_cons_of_mem
    exact insertLoop_mem_row ok _ doc.features 0 0 i (by omega) (by omega) hoki
  · intro i hic hoki
    apply List.mem_append_right
    apply List.mem_cons_of_mem
    exact insertLoop_mem_log ok _ doc.features 0 0 i (by omega) (by omega) hoki

/-- A FeatureCollection of three Point features labelled A, B, C. -/
def docPoints3 : GeoDoc :=
  ⟨[⟨some "Point", [("label", PyValue.str "A")]⟩,
    ⟨some "Point", [("label", PyValue.str "B")]⟩,
    ⟨some "Point", [("label", PyValue.str "C")]⟩], Option.none⟩

/-- Row-insert outcomes where exactly the second row (index 1) fails. -/
def okFailSecond : Nat → Bool := fun i => !(i == 1)

/-- Claim C3 witness: the theorem applied to a three-feature document with
answer yes where row 1 fails; the completion tally is 2 out of 3. -/
theorem row_failures_logged_batch_committed_once_witness :
    ∃ p : List Event,
      (ingest "points" (some docPoints3) Option.none 4326 "yes" okFailSecond).1
          = p ++ [Event.commit,
                  Event.completed (succCount okFailSecond docPoints3.features.length)
                    docPoints3.features.length]
        ∧ Event.commit ∉ p
        ∧ Event.logInsertError 1 ∈ p
        ∧ (∀ i, i < docPoints3.features.length → okFailSecond i = true →
            Event.insertRow i ∈ p)
        ∧ (∀ i, i < docPoints3.features.length → okFailSecond i = false →
            Event.logInsertError i ∈ p)
        ∧ (ingest "points" (some docPoints3) Option.none 4326 "yes" okFailSecond).2
            = true :=
  row_failures_logged_batch_committed_once "points" docPoints3 Option.none 4326
    "yes" okFailSecond 1 (by decide) (by decide) (by decide)

/-! ## Claim C6 -/

/-- Claim C6: on every run in which the CREATE TABLE statement is executed
(line 146), the side file named after the sanitized table name was already
written earlier in the trace (lines 137-138), and its content is exactly
the executed statement. -/
theorem ddl_written_before_executed
    (raw : String) (load : Option GeoDoc) (srid : Option Int) (ts : Int)
    (answer : String) (ok : Nat → Bool) (sql : String)
    (hexec : Event.execCreate sql ∈ (ingest raw load srid ts answer ok).1) :
    ∃ p q, (ingest raw load srid ts answer ok).1
        = p ++ Event.writeFile (sideFileName (sanitizeTableName raw)) sql :: q
      ∧ Event.execCreate sql ∈ q := by
  cases load with
  | none => simp [ingest] at hexec
  | some doc =>
      cases hfs2 : doc.features with
      | nil => simp [ingest, hfs2] at hexec
      | cons f0 rest =>
          by_cases hyes : lowerAnswerYes answer = true
          · rw [ingest_yes_trace raw doc srid ts answer ok f0 rest hfs2 hyes] at hexec ⊢
            have hsql : sql = ingestCreateSql raw doc ts := by
              rcases List.mem_append.mp hexec with h | h
              · simp at h
              · rcases List.mem_cons.mp h with h | h
                · simpa using h
                · exfalso
                  rcases List.mem_append.mp h with h | h
                  · rcases insertLoop_event_shape ok _ _ _ _ _ h with
                      ⟨i, hi⟩ | ⟨i, hi⟩ | ⟨a, b, hab⟩ <;> simp_all
                  · simp at h
            subst hsql
            refine ⟨[Event.examineOutput,
                     Event.printTableStructure (ingestCreateSql raw doc ts)],
                    Event.prompt :: Event.execCreate (ingestCreateSql raw doc ts) ::
                      ((insertLoop ok doc.features.length doc.features 0 0).1 ++
                        [Event.commit,
                         Event.completed
                           (insertLoop ok doc.features.length doc.features 0 0).2
                           doc.features.length]), ?_, ?_⟩
            · simp
            · simp
          · have hno : lowerAnswerYes answer = false := by
              cases hln : lowerAnswerYes answer
              · rfl
              · exact absurd hln hyes
            rw [ingest_no_trace raw doc srid ts answer ok f0 rest hfs2 hno] at hexec
            simp at hexec

set_option maxRecDepth 40000 in
/-- Claim C6 witness: the theorem applied to a concrete confirmed run. -/
theorem ddl_written_before_executed_witness :
    ∃ p q, (ingest "points" (some docPoints3) Option.none 4326 "yes" okFailSecond).1
        = p ++ Event.writeFile (sideFileName (sanitizeTableName "points"))
            (ingestCreateSql "points" docPoints3 4326) :: q
      ∧ Event.execCreate (ingestCreateSql "points" docPoints3 4326) ∈ q :=
  ddl_written_before_executed "points" (some docPoints3) Option.none 4326 "yes"
    okFailSecond (ingestCreateSql "points" docPoints3 4326) (by decide)

/-! ## Claim C7 -/

/-- An event is a database-mutating statement execution: the CREATE TABLE
execution or a row INSERT attempt (successful or failed, both execute the
statement). -/
def isMutating : Event → Bool
  | Event.execCreate _ => true
  | Event.insertRow _ => true
  | Event.logInsertError _ => true
  | _ => false

/-- Claim C7: every mutating statement execution in a run of
ingest_geojson_to_postgis comes strictly after the confirmation prompt
(line 140), and when the lowercased answer is neither yes nor y no
mutating statement is ever executed and the function returns False
(lines 142-144). -/
theorem mutation_gated_by_confirmation
    (raw : String) (load : Option GeoDoc) (srid : Option Int) (ts : Int)
    (answer : String) (ok : Nat → Bool) :
    (∀ e, e ∈ (ingest raw load srid ts answer ok).1 → isMutating e = true →
      ∃ p q, (ingest raw load srid ts answer ok).1 = p ++ Event.prompt :: q
        ∧ e ∈ q ∧ ∀ x ∈ p, isMutating x = false) ∧
    (lowerAnswerYes answer = false →
      (∀ e ∈ (ingest raw load srid ts answer ok).1, isMutating e = false) ∧
        (ingest raw load srid ts answer ok).2 = false) := by
  constructor
  · intro e he hmut
    cases load with
    | none => simp [ingest] at he
    | some doc =>
        cases hfs2 : doc.features with
        | nil =>
            simp [ingest, hfs2] at he
            rw [he] at hmut
            simp [isMutating] at hmut
        | cons f0 rest =>
            by_cases hyes : lowerAnswerYes answer = true
            · rw [ingest_yes_trace raw doc srid ts answer ok f0 rest hfs2 hyes] at he ⊢
              refine ⟨[Event.examineOutput,
                       Event.printTableStructure (ingestCreateSql raw doc ts),
                       Event.writeFile (sideFileName (sanitizeTableName raw))
                         (ingestCreateSql raw doc ts)],
                      Event.execCreate (ingestCreateSql raw doc ts) ::
                        ((insertLoop ok doc.features.length doc.features 0 0).1 ++
                          [Event.commit,
                           Event.completed
                             (insertLoop ok doc.features.length doc.features 0 0).2
                             doc.features.length]), ?_, ?_, ?_⟩
              · simp
              · rcases List.mem_append.mp he with h | h
                · exfalso
                  simp only [List.mem_cons, List.not_mem_nil, or_false] at h
                  rcases h with rfl | rfl | rfl | rfl <;> simp [isMutating] at hmut
                · exact h
              · intro x hx
                simp only [List.mem_cons, List.not_mem_nil, or_false] at hx
                rcases hx with rfl | rfl | rfl <;> rfl
            · have hno : lowerAnswerYes answer = false := by
                cases hln : lowerAnswerYes answer
                · rfl
                · exact absurd hln hyes
              rw [ingest_no_trace raw doc srid ts answer ok f0 rest hfs2 hno] at he
              exfalso
              simp only [List.mem_cons, List.not_mem_nil, or_false] at he
              rcases he with rfl | rfl | rfl | rfl | rfl <;> simp [isMutating] at hmut
  · intro hno
    cases load with
    | none => exact ⟨by intro e he; simp [ingest] at he, rfl⟩
    | some doc =>
        cases hfs2 : doc.features with
        | nil =>
            constructor
            · intro e he
              simp [ingest, hfs2] at he
              rw [he]
              rfl
            · simp [ingest, hfs2]
        | cons f0 rest =>
            rw [ingest_no_trace raw doc srid ts answer ok f0 rest hfs2 hno]
            constructor
            · intro e he
              simp only [List.mem_cons, List.not_mem_nil, or_false] at he
              rcases he with rfl | rfl | rfl | rfl | rfl <;> rfl
            · rfl

set_option maxRecDepth 40000 in
/-- Claim C7 witness: the prompt-precedes-mutation part applied to the
executed CREATE TABLE of a confirmed concrete run, and the no-mutation
part applied to the same run with answer no. -/
theorem mutation_gated_by_confirmation_witness :
    (∃ p q, (ingest "points" (some docPoints3) Option.none 4326 "yes" okFailSecond).1
        = p ++ Event.prompt :: q
      ∧ Event.execCreate (ingestCreateSql "points" docPoints3 4326) ∈ q
      ∧ ∀ x ∈ p, isMutating x = false) ∧
    ((∀ e ∈ (ingest "points" (some docPoints3) Option.none 4326 "no" okFailSecond).1,
        isMutating e = false) ∧
      (ingest "points" (some docPoints3) Option.none 4326 "no" okFailSecond).2
          = false) :=
  ⟨(mutation_gated_by_confirmation "points" (some docPoints3) Option.none 4326
      "yes" okFailSecond).1
      (Event.execCreate (ingestCreateSql "points" docPoints3 4326))
      (by decide) (by decide),
   (mutation_gated_by_confirmation "points" (some docPoints3) Option.none 4326
      "no" okFailSecond).2 (by decide)⟩

end IGuide
